import Mathlib

/-!
Shallow embedding of the FastAPI monitoring tutorial application
(`docs/_source/tutorials_and_integrations/integrations/monitor_endpoints with_fastapi.ipynb`).

The tutorial defines three route handlers (`predict_transformers` on
`POST /sentiment/`, `predict_spacy` on `POST /ner/`, `root` on `GET /`),
two records-mapper functions (`text2records`, `token2records`) and a set of
`ArgillaLogHTTPMiddleware` registrations.  The external collaborators
(the transformers pipeline, the spaCy pipeline and the Argilla mappers)
are modelled as function parameters; the tutorial's own code is translated
directly.
-/

namespace MonitorFastapi

/-- One element of a raw transformers text-classification prediction:
a `{"label": ..., "score": ...}` dict.  Scores are modelled as rationals. -/
structure LabelScore where
  label : String
  score : ℚ
deriving DecidableEq, Repr

/-- The response shape built by `predict_transformers`:
a `{"labels": [...], "scores": [...]}` dict. -/
structure ClassificationOutput where
  labels : List String
  scores : List ℚ
deriving DecidableEq, Repr

/-- A spaCy entity span as the tutorial reads it from `doc.ents`:
`ent.label_`, `ent.start_char`, `ent.end_char`. -/
structure SpacyEnt where
  label_ : String
  start_char : Int
  end_char : Int
deriving DecidableEq, Repr

/-- A spaCy `Doc`, of which the tutorial only uses the `ents` attribute. -/
structure SpacyDoc where
  ents : List SpacyEnt
deriving DecidableEq, Repr

/-- An entity dict built by `predict_spacy`:
`{"label": ent.label_, "start": ent.start_char, "end": ent.end_char}`. -/
structure Entity where
  label : String
  start : Int
  «end» : Int
deriving DecidableEq, Repr

/-- The response shape built by `predict_spacy` for one input text:
`{"text": text, "entities": entities}`. -/
structure NerOutput where
  text : String
  entities : List Entity
deriving DecidableEq, Repr

/-- Handler of `POST /sentiment/`:

```python
@app.post("/sentiment/")
def predict_transformers(batch: List[str]):
    predictions = transformers_pipeline(batch)
    return [
        {
            "labels": [p["label"] for p in prediction],
            "scores": [p["score"] for p in prediction],
        }
        for prediction in predictions
    ]
```

The external `transformers_pipeline` is a parameter. -/
def predict_transformers (transformers_pipeline : List String → List (List LabelScore))
    (batch : List String) : List ClassificationOutput :=
  let predictions := transformers_pipeline batch
  predictions.map (fun prediction =>
    { labels := prediction.map (fun p => p.label),
      scores := prediction.map (fun p => p.score) })

/-- Handler of `POST /ner/`:

```python
@app.post("/ner/")
def predict_spacy(batch: List[str]):
    predictions = []
    for text in batch:
        doc = spacy_pipeline(text)
        entities = [
            {"label": ent.label_, "start": ent.start_char, "end": ent.end_char}
            for ent in doc.ents
        ]
        prediction = {"text": text, "entities": entities}
        predictions.append(prediction)
    return predictions
```

The external `spacy_pipeline` is a parameter; the append loop is a map. -/
def predict_spacy (spacy_pipeline : String → SpacyDoc)
    (batch : List String) : List NerOutput :=
  batch.map (fun text =>
    let doc := spacy_pipeline text
    let entities := doc.ents.map (fun ent =>
      { label := ent.label_, start := ent.start_char, «end» := ent.end_char : Entity })
    { text := text, entities := entities })

/-- Handler of `GET /`:

```python
@app.get("/")
def root():
    return {"message": "alive"}
``` -/
def root : List (String × String) :=
  [("message", "alive")]

/-- Records mapper for the text-classification middleware:

```python
def text2records(batch: List[str], outputs: List[dict]):
    return [
        text_classification_mapper(data, prediction)
        for data, prediction in zip(batch, outputs)
    ]
```

The external `text_classification_mapper` is a parameter, with unconstrained
output element type and record type. -/
def text2records {Out Rec : Type} (text_classification_mapper : String → Out → Rec)
    (batch : List String) (outputs : List Out) : List Rec :=
  (batch.zip outputs).map (fun p => text_classification_mapper p.1 p.2)

/-- Records mapper for the token-classification middleware:

```python
def token2records(batch: List[str], outputs: List[dict]):
    return [
        token_classification_mapper(data, prediction)
        for data, prediction in zip(batch, outputs)
    ]
``` -/
def token2records {Out Rec : Type} (token_classification_mapper : String → Out → Rec)
    (batch : List String) (outputs : List Out) : List Rec :=
  (batch.zip outputs).map (fun p => token_classification_mapper p.1 p.2)

/-- One `app.add_middleware(ArgillaLogHTTPMiddleware, ...)` call, keeping the
route path and dataset name it configures. -/
structure MiddlewareRegistration where
  api_endpoint : String
  dataset : String
deriving DecidableEq, Repr

/-- A route served by the app. -/
structure Route where
  method : String
  path : String
deriving DecidableEq, Repr

/-- The routes the tutorial app serves: `POST /sentiment/` (`predict_transformers`),
`POST /ner/` (`predict_spacy`) and `GET /` (`root`). -/
def app_routes : List Route :=
  [⟨"POST", "/sentiment/"⟩, ⟨"POST", "/ner/"⟩, ⟨"GET", "/"⟩]

/-- The paths of the prediction endpoints actually served by the app. -/
def prediction_route_paths : List String :=
  (app_routes.filter (fun r => r.method == "POST")).map (fun r => r.path)

/-- The two `app.add_middleware` calls made in the notebook body (sections 4 and 5):
`api_endpoint="/transformers/"` with `dataset="monitoring_transformers"`, and
`api_endpoint="/spacy/"` with `dataset="monitoring_spacy"`. -/
def notebook_middleware_registrations : List MiddlewareRegistration :=
  [⟨"/transformers/", "monitoring_transformers"⟩,
   ⟨"/spacy/", "monitoring_spacy"⟩]

/-- The three `app.add_middleware` calls in the appendix `main.py`, in source order:
`api_endpoint="/transformers/"`, then `api_endpoint="/ner/"`, then
`api_endpoint="/sentiment/"`. -/
def appendix_middleware_registrations : List MiddlewareRegistration :=
  [⟨"/transformers/", "monitoring_transformers"⟩,
   ⟨"/ner/", "monitoring_spacy"⟩,
   ⟨"/sentiment/", "monitoring_transformers"⟩]

/-- The example batch of section 1 of the tutorial. -/
def example_batch : List String :=
  ["I really like argilla!"]

/-- The raw prediction the transformers pipeline returns for `example_batch`
in the tutorial's recorded output:
`[[{'label': 'NEGATIVE', 'score': 0.0029897126369178295},
   {'label': 'POSITIVE', 'score': 0.9970102310180664}]]`. -/
def example_predictions : List (List LabelScore) :=
  [[⟨"NEGATIVE", 29897126369178295 / 10 ^ 19⟩,
    ⟨"POSITIVE", 9970102310180664 / 10 ^ 16⟩]]

end MonitorFastapi

namespace MonitorFastapi

/-- C1 (evaluation of the bug): the claim says every `ArgillaLogHTTPMiddleware`
registration's `api_endpoint` equals the path of a prediction endpoint actually
served by the app.  Evaluating the code: neither the notebook's registrations
(`"/transformers/"`, `"/spacy/"`) nor the appendix's (`"/transformers/"` among
them) are all served prediction routes — `"/transformers/"` and `"/spacy/"`
match no route, so no request to them is ever served, let alone logged. -/
theorem C1_middleware_route_mismatch :
    "/transformers/" ∉ prediction_route_paths ∧
    "/spacy/" ∉ prediction_route_paths ∧
    (notebook_middleware_registrations.all
      (fun m => prediction_route_paths.contains m.api_endpoint)) = false ∧
    (appendix_middleware_registrations.all
      (fun m => prediction_route_paths.contains m.api_endpoint)) = false := by
  decide

/-- C6: `GET /` always returns the JSON object `{"message": "alive"}`; the handler
takes no arguments and reads no state, so every invocation returns this constant. -/
theorem C6_root_alive : root = [("message", "alive")] := rfl

/-- C9: for every mapper and every (batch, outputs) pair, including pairs of unequal
length, `text2records` and `token2records` return exactly
`min (length batch) (length outputs)` records (they are total, so no error is
raised): `zip` silently drops the surplus elements of the longer list. -/
theorem C9_zip_truncates {Out RecA RecB : Type}
    (tcm : String → Out → RecA) (tkm : String → Out → RecB)
    (batch : List String) (outputs : List Out) :
    (text2records tcm batch outputs).length = min batch.length outputs.length ∧
    (token2records tkm batch outputs).length = min batch.length outputs.length := by
  constructor <;> simp [text2records, token2records]

/-- C2: if the classification provider returns one raw prediction per input
(`transformers_pipeline batch = batch.map tpOne` for a per-input prediction
function `tpOne`), then the `POST /sentiment/` handler returns one
`{labels, scores}` object per input, in input order: the result's length equals
the batch length and its `i`-th object is built from `tpOne` of the `i`-th
input string. -/
theorem C2_sentiment_one_record_per_input
    (tp : List String → List (List LabelScore)) (tpOne : String → List LabelScore)
    (batch : List String) (h : tp batch = batch.map tpOne) :
    (predict_transformers tp batch).length = batch.length ∧
    ∀ i : Nat, (predict_transformers tp batch)[i]? =
      batch[i]?.map (fun s =>
        { labels := (tpOne s).map (fun p => p.label),
          scores := (tpOne s).map (fun p => p.score) }) := by
  unfold predict_transformers
  rw [h]
  refine ⟨by simp, fun i => ?_⟩
  rw [List.getElem?_map, List.getElem?_map]
  cases batch[i]? <;> rfl

/-- C2 witness: the theorem applied to a concrete provider and the concrete
batch `["hi"]`. -/
theorem C2_sentiment_one_record_per_input_witness :
    (predict_transformers (fun b => b.map (fun _ => [⟨"POSITIVE", 1⟩])) ["hi"]).length =
      (["hi"] : List String).length ∧
    ∀ i : Nat,
      (predict_transformers (fun b => b.map (fun _ => [⟨"POSITIVE", 1⟩])) ["hi"])[i]? =
      (["hi"] : List String)[i]?.map (fun s =>
        { labels := ((fun _ : String => [(⟨"POSITIVE", 1⟩ : LabelScore)]) s).map (fun p => p.label),
          scores := ((fun _ : String => [(⟨"POSITIVE", 1⟩ : LabelScore)]) s).map (fun p => p.score) }) :=
  C2_sentiment_one_record_per_input
    (fun b => b.map (fun _ => [⟨"POSITIVE", 1⟩])) (fun _ => [⟨"POSITIVE", 1⟩]) ["hi"] rfl

/-- C3: the `POST /ner/` handler returns one `{text, entities}` object per input
string, in input order; the `i`-th object's `text` field is the `i`-th input
string, and its entities are exactly the `{label, start, end}` triples read off
the provider's spans (`doc.ents` of `spacy_pipeline text`) for that text. -/
theorem C3_ner_one_record_per_input (nlp : String → SpacyDoc) (batch : List String) :
    (predict_spacy nlp batch).length = batch.length ∧
    ∀ i : Nat,
      (predict_spacy nlp batch)[i]?.map (fun r => r.text) = batch[i]? ∧
      (predict_spacy nlp batch)[i]?.map (fun r => r.entities) =
        batch[i]?.map (fun text => (nlp text).ents.map (fun ent =>
          { label := ent.label_, start := ent.start_char, «end» := ent.end_char })) := by
  refine ⟨by simp [predict_spacy], fun i => ?_⟩
  unfold predict_spacy
  rw [List.getElem?_map]
  constructor <;> cases batch[i]? <;> rfl

/-- C4: every `{labels, scores}` record produced by the `POST /sentiment/`
handler has as many labels as scores: both lists are comprehensions over the
same raw prediction list. -/
theorem C4_labels_scores_same_length
    (tp : List String → List (List LabelScore)) (batch : List String)
    (r : ClassificationOutput) (hr : r ∈ predict_transformers tp batch) :
    r.labels.length = r.scores.length := by
  unfold predict_transformers at hr
  simp only [List.mem_map] at hr
  obtain ⟨prediction, _, rfl⟩ := hr
  simp

/-- C4 witness: the theorem applied to a concrete provider, batch and record. -/
theorem C4_labels_scores_same_length_witness :
    ({ labels := ["POSITIVE"], scores := [1] } : ClassificationOutput).labels.length =
    ({ labels := ["POSITIVE"], scores := [1] } : ClassificationOutput).scores.length :=
  C4_labels_scores_same_length (fun _ => [[⟨"POSITIVE", 1⟩]]) ["hi"]
    { labels := ["POSITIVE"], scores := [1] } (by decide)

/-- C5: the `POST /ner/` handler copies the provider's span offsets unchanged,
so if every span the provider produces for a text of the batch satisfies
`0 ≤ start_char < end_char ≤ length text`, then every entity of every record
satisfies `0 ≤ start < end ≤ length text` for that record's `text` field. -/
theorem C5_entity_offsets_in_bounds (nlp : String → SpacyDoc) (batch : List String)
    (hnlp : ∀ text ∈ batch, ∀ ent ∈ (nlp text).ents,
      0 ≤ ent.start_char ∧ ent.start_char < ent.end_char ∧
        ent.end_char ≤ (text.length : Int)) :
    ∀ r ∈ predict_spacy nlp batch, ∀ e ∈ r.entities,
      0 ≤ e.start ∧ e.start < e.«end» ∧ e.«end» ≤ (r.text.length : Int) := by
  intro r hr e he
  unfold predict_spacy at hr
  simp only [List.mem_map] at hr
  obtain ⟨text, htext, rfl⟩ := hr
  simp only [List.mem_map] at he
  obtain ⟨ent, hent, rfl⟩ := he
  exact hnlp text htext ent hent

/-- C5 witness: the theorem applied to a concrete provider producing one span
`("ORG", 0, 2)` on the batch `["ab"]`, evaluated at the record and entity the
handler produces. -/
theorem C5_entity_offsets_in_bounds_witness :
    0 ≤ (Entity.mk "ORG" 0 2).start ∧
    (Entity.mk "ORG" 0 2).start < (Entity.mk "ORG" 0 2).«end» ∧
    (Entity.mk "ORG" 0 2).«end» ≤
      (((NerOutput.mk "ab" [Entity.mk "ORG" 0 2]).text.length : Nat) : Int) :=
  C5_entity_offsets_in_bounds (fun _ => ⟨[⟨"ORG", 0, 2⟩]⟩) ["ab"] (by decide)
    (NerOutput.mk "ab" [Entity.mk "ORG" 0 2]) (by decide)
    (Entity.mk "ORG" 0 2) (by decide)

/-- C7: the record mappers `text2records` and `token2records` and the batch
prediction adapter `predict_transformers` are deterministic, stateless
transformations of their arguments alone (their shallow embeddings are plain
functions with no state parameter): two invocations with the same
(input batch, provider outputs) pair produce identical record sequences. -/
theorem C7_mappers_pure_deterministic {Out RecA RecB : Type}
    (tcm : String → Out → RecA) (tkm : String → Out → RecB)
    (tp : List String → List (List LabelScore))
    (b₁ b₂ : List String) (o₁ o₂ : List Out)
    (hb : b₁ = b₂) (ho : o₁ = o₂) :
    text2records tcm b₁ o₁ = text2records tcm b₂ o₂ ∧
    token2records tkm b₁ o₁ = token2records tkm b₂ o₂ ∧
    predict_transformers tp b₁ = predict_transformers tp b₂ := by
  subst hb
  subst ho
  exact ⟨rfl, rfl, rfl⟩

/-- C7 witness: the theorem applied to concrete mappers, a concrete batch and
concrete provider outputs. -/
theorem C7_mappers_pure_deterministic_witness :
    text2records (fun s (n : Nat) => (s, n)) ["a"] [1] =
      text2records (fun s (n : Nat) => (s, n)) ["a"] [1] ∧
    token2records (fun _ (n : Nat) => n) ["a"] [1] =
      token2records (fun _ (n : Nat) => n) ["a"] [1] ∧
    predict_transformers (fun _ => [[⟨"POSITIVE", 1⟩]]) ["a"] =
      predict_transformers (fun _ => [[⟨"POSITIVE", 1⟩]]) ["a"] :=
  C7_mappers_pure_deterministic (fun s (n : Nat) => (s, n)) (fun _ (n : Nat) => n)
    (fun _ => [[⟨"POSITIVE", 1⟩]]) ["a"] ["a"] [1] [1] rfl rfl

/-- C8: on the batch `["I really like argilla!"]` with the binary sentiment
provider output recorded in the tutorial, the adapter yields exactly one
record, with labels `["NEGATIVE", "POSITIVE"]`, exactly two scores, and the
two scores sum to within `10⁻⁶` of `1`. -/
theorem C8_example_batch :
    (predict_transformers (fun _ => example_predictions) example_batch).length = 1 ∧
    (predict_transformers (fun _ => example_predictions) example_batch).map
      (fun r => r.labels) = [["NEGATIVE", "POSITIVE"]] ∧
    (predict_transformers (fun _ => example_predictions) example_batch).map
      (fun r => r.scores.length) = [2] ∧
    (predict_transformers (fun _ => example_predictions) example_batch).map
      (fun r => r.scores.sum) =
      [29897126369178295 / 10 ^ 19 + 9970102310180664 / 10 ^ 16] ∧
    |(29897126369178295 / 10 ^ 19 + 9970102310180664 / 10 ^ 16 : ℚ) - 1| <
      1 / 1000000 := by
  refine ⟨rfl, rfl, rfl, ?_, by norm_num [abs_lt]⟩
  simp [predict_transformers, example_predictions, example_batch]

/-- C10: in every record returned by the `POST /sentiment/` handler, labels and
scores are positionally aligned with the provider's raw prediction: the `i`-th
label and the `i`-th score of the `j`-th record are the `label` and `score`
fields of the `i`-th element of the provider's `j`-th raw prediction. -/
theorem C10_labels_scores_aligned
    (tp : List String → List (List LabelScore)) (batch : List String) (j i : Nat) :
    (predict_transformers tp batch)[j]?.map (fun r => r.labels[i]?) =
      (tp batch)[j]?.map (fun pred => pred[i]?.map (fun p => p.label)) ∧
    (predict_transformers tp batch)[j]?.map (fun r => r.scores[i]?) =
      (tp batch)[j]?.map (fun pred => pred[i]?.map (fun p => p.score)) := by
  unfold predict_transformers
  rw [List.getElem?_map]
  constructor <;> cases (tp batch)[j]? <;> simp [List.getElem?_map]

end MonitorFastapi
